import Mathlib

/-!
Shallow embedding of `src/Scripts/refs-dev-crawler.py` (MyCodeAssistant
documentation crawler): SHA-256 fingerprinting, batching/indexing with
partial-failure aggregation, source collection, and the search pass-through.
All machine arithmetic is `Nat` with explicit reduction modulo `2 ^ 32`.
-/

/-- `2 ^ 32`, the modulus for all 32-bit words of SHA-256. -/
def M32 : Nat := 4294967296

/-- Right rotation of a 32-bit word (input and output below `M32`). -/
def rotr32 (n x : Nat) : Nat := ((x >>> n) ||| (x <<< (32 - n))) % M32

/-- SHA-256 `Ch(x,y,z)`; bitwise complement is xor with the all-ones word. -/
def ch32 (x y z : Nat) : Nat := (x &&& y) ^^^ ((x ^^^ 4294967295) &&& z)

/-- SHA-256 `Maj(x,y,z)`. -/
def maj32 (x y z : Nat) : Nat := (x &&& y) ^^^ (x &&& z) ^^^ (y &&& z)

/-- SHA-256 big sigma 0. -/
def bsig0 (x : Nat) : Nat := rotr32 2 x ^^^ rotr32 13 x ^^^ rotr32 22 x

/-- SHA-256 big sigma 1. -/
def bsig1 (x : Nat) : Nat := rotr32 6 x ^^^ rotr32 11 x ^^^ rotr32 25 x

/-- SHA-256 small sigma 0. -/
def ssig0 (x : Nat) : Nat := rotr32 7 x ^^^ rotr32 18 x ^^^ (x >>> 3)

/-- SHA-256 small sigma 1. -/
def ssig1 (x : Nat) : Nat := rotr32 17 x ^^^ rotr32 19 x ^^^ (x >>> 10)

/-- The eight SHA-256 initial hash words. -/
structure H8 where
  a : Nat
  b : Nat
  c : Nat
  d : Nat
  e : Nat
  f : Nat
  g : Nat
  h : Nat
deriving Repr, DecidableEq

/-- FIPS 180-4 initial state for SHA-256 (the eight words in decimal). -/
def initH : H8 :=
  ⟨1779033703, 3144134277, 1013904242, 2773480762,
   1359893119, 2600822924, 528734635, 1541459225⟩

/-- The 64 SHA-256 round constants, in decimal. -/
def K64 : List Nat :=
  [1116352408, 1899447441, 3049323471, 3921009573, 961987163, 1508970993,
   2453635748, 2870763221, 3624381080, 310598401, 607225278, 1426881987,
   1925078388, 2162078206, 2614888103, 3248222580, 3835390401, 4022224774,
   264347078, 604807628, 770255983, 1249150122, 1555081692, 1996064986,
   2554220882, 2821834349, 2952996808, 3210313671, 3336571891, 3584528711,
   113926993, 338241895, 666307205, 773529912, 1294757372, 1396182291,
   1695183700, 1986661051, 2177026350, 2456956037, 2730485921, 2820302411,
   3259730800, 3345764771, 3516065817, 3600352804, 4094571909, 275423344,
   430227734, 506948616, 659060556, 883997877, 958139571, 1322822218,
   1537002063, 1747873779, 1955562222, 2024104815, 2227730452, 2361852424,
   2428436474, 2756734187, 3204031479, 3329325298]

/-- Big-endian byte serialization of `v` on exactly `n` bytes. -/
def beBytes : Nat → Nat → List Nat
  | 0, _ => []
  | n + 1, v => beBytes n (v >>> 8) ++ [v % 256]

/-- Combine a byte stream into big-endian 32-bit words, four bytes per word. -/
def bytesToWords : List Nat → List Nat
  | b0 :: b1 :: b2 :: b3 :: rest => (((b0 * 256 + b1) * 256 + b2) * 256 + b3) :: bytesToWords rest
  | _ => []

/-- Extend a 16-word window by `n` schedule words; the window is the list of
the 16 most recent words, oldest first. -/
def extendW : Nat → List Nat → List Nat
  | 0, _ => []
  | n + 1, w0 :: w1 :: w2 :: w3 :: w4 :: w5 :: w6 :: w7 ::
           w8 :: w9 :: w10 :: w11 :: w12 :: w13 :: w14 :: w15 :: _ =>
      let nw := (ssig1 w14 + w9 + ssig0 w1 + w0) % M32
      nw :: extendW n [w1, w2, w3, w4, w5, w6, w7, w8, w9, w10, w11, w12, w13, w14, w15, nw]
  | _ + 1, _ => []

/-- One SHA-256 compression round on the working variables. -/
def shaRound (st : H8) (kt wt : Nat) : H8 :=
  let t1 := (st.h + bsig1 st.e + ch32 st.e st.f st.g + kt + wt) % M32
  let t2 := (bsig0 st.a + maj32 st.a st.b st.c) % M32
  ⟨(t1 + t2) % M32, st.a, st.b, st.c, (st.d + t1) % M32, st.e, st.f, st.g⟩

/-- Run the compression rounds over paired round constants and schedule words. -/
def shaRounds (st : H8) : List Nat → List Nat → H8
  | kt :: ks, wt :: ws => shaRounds (shaRound st kt wt) ks ws
  | _, _ => st

/-- Length of a list with a forced accumulator: matching on the accumulator
keeps it a numeral, so kernel evaluation runs in constant stack depth.
Equal to `l.length + n`. -/
def listLen : List α → Nat → Nat
  | [], n => n
  | _ :: xs, 0 => listLen xs 1
  | _ :: xs, n + 1 => listLen xs (n + 2)

/-- Fuel-indexed worker for `chunksOf`; structural recursion on the fuel so
that the definition reduces inside the kernel. -/
def chunksOfFuel (k : Nat) : Nat → List α → List (List α)
  | 0, _ => []
  | _, [] => []
  | fuel + 1, x :: xs => (x :: xs).take k :: chunksOfFuel k fuel (xs.drop (k - 1))

/-- Split a list into consecutive chunks of `k` elements (last may be
shorter); this is the Python slicing loop `l[i:i+k]` for `i` in
`range(0, len(l), k)`. -/
def chunksOf (k : Nat) (l : List α) : List (List α) := chunksOfFuel k (listLen l 0) l

/-- Compress one 64-byte block into the running state. -/
def shaCompress (st : H8) (block : List Nat) : H8 :=
  let w16 := bytesToWords block
  let w := w16 ++ extendW 48 w16
  let r := shaRounds st K64 w
  ⟨(st.a + r.a) % M32, (st.b + r.b) % M32, (st.c + r.c) % M32, (st.d + r.d) % M32,
   (st.e + r.e) % M32, (st.f + r.f) % M32, (st.g + r.g) % M32, (st.h + r.h) % M32⟩

/-- One-pass padding worker: copies the message while counting its bytes in
a forced accumulator, then appends `0x80`, the zero bytes up to 56 mod 64,
and the 64-bit big-endian bit length. -/
def padLoop : List Nat → Nat → List Nat
  | b :: bs, 0 => b :: padLoop bs 1
  | b :: bs, n + 1 => b :: padLoop bs (n + 2)
  | [], len => 0x80 :: (List.replicate ((119 - len % 64) % 64) 0 ++ beBytes 8 (len * 8))

/-- FIPS 180-4 padding: append `0x80`, zero bytes up to 56 mod 64, then the
64-bit big-endian bit length. -/
def padMessage (msg : List Nat) : List Nat := padLoop msg 0

/-- Identity on `Nat` that forces its argument to a numeral when the kernel
evaluates it (the match must normalize the argument to pick a branch). -/
def forceNat (n : Nat) : Nat :=
  match n with
  | 0 => 0
  | m + 1 => m + 1

/-- Identity on the hash state forcing all eight words to numerals. -/
def forceH8 (st : H8) : H8 :=
  ⟨forceNat st.a, forceNat st.b, forceNat st.c, forceNat st.d,
   forceNat st.e, forceNat st.f, forceNat st.g, forceNat st.h⟩

/-- `List.foldl shaCompress`, with the running state forced to numerals at
each block so that kernel evaluation stays shallow. -/
def shaBlocks : H8 → List (List Nat) → H8
  | st, [] => st
  | st, b :: bs => shaBlocks (forceH8 (shaCompress st b)) bs

/-- SHA-256 of a byte stream (the `hashlib.sha256` digest state). -/
def sha256 (msg : List Nat) : H8 :=
  shaBlocks initH (chunksOf 64 (padMessage msg))

/-- Lowercase hexadecimal digit for a nibble. -/
def hexDigit (m : Nat) : Char :=
  if m < 10 then Char.ofNat (48 + m) else Char.ofNat (87 + m)

/-- Exactly `n` lowercase hex characters of `v`, most significant first. -/
def toHexChars : Nat → Nat → List Char
  | 0, _ => []
  | n + 1, v => toHexChars n (v / 16) ++ [hexDigit (v % 16)]

/-- The 64 hex characters of a SHA-256 state (`hexdigest()`). -/
def hexdigestChars (st : H8) : List Char :=
  toHexChars 8 st.a ++ toHexChars 8 st.b ++ toHexChars 8 st.c ++ toHexChars 8 st.d ++
  toHexChars 8 st.e ++ toHexChars 8 st.f ++ toHexChars 8 st.g ++ toHexChars 8 st.h

/-- UTF-8 encoding of one character (Python `str.encode()`), as bytes. -/
def utf8Char (c : Char) : List Nat :=
  let n := c.toNat
  if n < 0x80 then [n]
  else if n < 0x800 then [0xC0 ||| (n >>> 6), 0x80 ||| (n &&& 0x3F)]
  else if n < 0x10000 then
    [0xE0 ||| (n >>> 12), 0x80 ||| ((n >>> 6) &&& 0x3F), 0x80 ||| (n &&& 0x3F)]
  else
    [0xF0 ||| (n >>> 18), 0x80 ||| ((n >>> 12) &&& 0x3F),
     0x80 ||| ((n >>> 6) &&& 0x3F), 0x80 ||| (n &&& 0x3F)]

/-- UTF-8 encoding of a string, as a byte list. -/
def utf8Bytes (s : String) : List Nat :=
  s.data.foldr (fun c acc => utf8Char c ++ acc) []

/-- Scalar JSON values that can appear in a document metadata mapping. -/
inductive JVal where
  | jstr (s : String)
  | jint (n : Int)
  | jbool (b : Bool)
  | jnull
deriving Repr, DecidableEq

/-- The lowercase hexadecimal alphabet. -/
def lowercaseHexChars : List Char := "0123456789abcdef".data

/-- Escape one character the way Python `json.dumps` does with its default
`ensure_ascii=True`: short escapes for backslash, quote and the common
control characters, `\uXXXX` for everything outside `0x20..0x7e` (surrogate
pairs above `0xFFFF`), the character itself otherwise. -/
def jsonEscapeChar (c : Char) : List Char :=
  let n := c.toNat
  if c = '\\' then ['\\', '\\']
  else if c = '"' then ['\\', '"']
  else if n = 8 then ['\\', 'b']
  else if n = 9 then ['\\', 't']
  else if n = 10 then ['\\', 'n']
  else if n = 12 then ['\\', 'f']
  else if n = 13 then ['\\', 'r']
  else if n < 0x20 ∨ 0x7e < n then
    if n < 0x10000 then '\\' :: 'u' :: toHexChars 4 n
    else
      ('\\' :: 'u' :: toHexChars 4 (0xD800 + (n - 0x10000) / 0x400)) ++
      ('\\' :: 'u' :: toHexChars 4 (0xDC00 + (n - 0x10000) % 0x400))
  else [c]

/-- A JSON string literal with Python escaping. -/
def jsonStr (s : String) : String :=
  String.mk ('"' :: s.data.foldr (fun c acc => jsonEscapeChar c ++ acc) [] ++ ['"'])

/-- Rendering of a scalar value, matching Python `json.dumps`. -/
def jsonVal : JVal → String
  | .jstr s => jsonStr s
  | .jint n => toString n
  | .jbool true => "true"
  | .jbool false => "false"
  | .jnull => "null"

/-- Code-point lexicographic order on character lists (Python `str` order). -/
def lexLe : List Char → List Char → Bool
  | [], _ => true
  | _ :: _, [] => false
  | a :: as, b :: bs =>
      if a.toNat < b.toNat then true
      else if a.toNat = b.toNat then lexLe as bs
      else false

/-- Python string comparison used by `sort_keys=True`. -/
def strLe (a b : String) : Bool := lexLe a.data b.data

/-- Insert into a list sorted by `le` (stable). -/
def insertSorted (le : α → α → Bool) (x : α) : List α → List α
  | [] => [x]
  | y :: ys => if le x y then x :: y :: ys else y :: insertSorted le x ys

/-- Stable insertion sort by `le`. -/
def sortBy (le : α → α → Bool) (l : List α) : List α :=
  l.foldr (insertSorted le) []

/-- `json.dumps(metadata, sort_keys=True)` for a mapping of scalars: keys
sorted by code point, default separators `", "` and `": "`, wrapped in
braces (written `\x7b`/`\x7d`). -/
def jsonDumpsSorted (md : List (String × JVal)) : String :=
  "\x7b" ++
    String.intercalate ", "
      ((sortBy (fun a b => strLe a.1 b.1) md).map (fun kv => jsonStr kv.1 ++ ": " ++ jsonVal kv.2)) ++
  "\x7d"

/-- Python string slicing `s[:n]`: the first `n` characters. -/
def strTake (s : String) (n : Nat) : String := String.mk (s.data.take n)

/-- `CloudflareVectorIndexer.generate_embedding_id`: the first 16 hex
characters of the SHA-256 digest of the UTF-8 bytes of
`f"{text}{json.dumps(metadata, sort_keys=True)}"`. -/
def generate_embedding_id (text : String) (metadata : List (String × JVal)) : String :=
  strTake (String.mk (hexdigestChars (sha256 (utf8Bytes (text ++ jsonDumpsSorted metadata))))) 16

/-- A `langchain` document: page text plus a metadata mapping (a Python
dict modelled as an association list in insertion order). -/
structure Document where
  page_content : String
  metadata : List (String × JVal)
deriving Repr, DecidableEq

/-- Python dict merge `{**base, **upd}`: keys of `upd` override `base`;
represented with the overridden keys removed and the update appended. -/
def dictMerge (base upd : List (String × JVal)) : List (String × JVal) :=
  base.filter (fun kv => upd.all (fun kv2 => kv2.1 != kv.1)) ++ upd

/-- One element of the `documents` array in a batch payload: id, truncated
text, and metadata extended with `indexed_at` and `source`. -/
structure IndexableUnit where
  id : String
  text : String
  metadata : List (String × JVal)
deriving Repr, DecidableEq

/-- The unit built for one document inside `add_documents`: the id is
`generate_embedding_id(doc.page_content, doc.metadata)` (computed on the
original metadata, before `indexed_at` is attached), the text is
`doc.page_content[:4096]`, and the sent metadata merges in the
`indexed_at` timestamp (`datetime.utcnow().isoformat()`, here the `now`
argument) and the constant `source` tag. -/
def mkIndexableUnit (doc : Document) (now : String) : IndexableUnit :=
  { id := generate_embedding_id doc.page_content doc.metadata
  , text := strTake doc.page_content 4096
  , metadata := dictMerge doc.metadata
      [("indexed_at", JVal.jstr now), ("source", JVal.jstr "refs_dev_crawler")] }

/-- Module-level configuration default `WORKERS_URL`. -/
def WORKERS_URL : String := "https://agents-starter.wmeldman33.workers.dev"

/-- The `CloudflareVectorIndexer` constructor state. -/
structure CloudflareVectorIndexer where
  account_id : String
  api_token : String
  index_name : String
  workers_url : String
deriving Repr, DecidableEq

/-- The headers dict built for each batch request: `Content-Type` always,
and `Authorization` set to `"Bearer " + token` when the token is truthy
(non-empty) and to Python `None` (here `none`) otherwise. -/
def requestHeadersDict (api_token : String) : List (String × Option String) :=
  [("Content-Type", some "application/json"),
   ("Authorization", if api_token = "" then none else some ("Bearer " ++ api_token))]

/-- Modelled from the spec: the HTTP client (`requests`) omits every header
whose value is `None` — the Authorization header is "omitted entirely when
no token is configured — never sent as a literal \"None\"/null". The
headers that actually go on the wire are the non-`None` entries. -/
def wireHeaders (hs : List (String × Option String)) : List (String × String) :=
  hs.filterMap (fun kv => kv.2.map (fun v => (kv.1, v)))

/-- One `requests.post` call to `{workers_url}/embeddings/batch`: the JSON
payload fields (`documents`, `namespace` as `ns`, `source` as `src`), the
headers dict, and the 30-second timeout. -/
structure BatchRequest where
  url : String
  documents : List IndexableUnit
  ns : String
  src : String
  headers : List (String × Option String)
  timeout : Nat
deriving Repr, DecidableEq

/-- The request issued for one batch inside `add_documents`. -/
def mkBatchRequest (idx : CloudflareVectorIndexer) (now : String) (batch : List Document) :
    BatchRequest :=
  { url := idx.workers_url ++ "/embeddings/batch"
  , documents := batch.map (fun d => mkIndexableUnit d now)
  , ns := "documentation"
  , src := "refs_dev_crawler"
  , headers := requestHeadersDict idx.api_token
  , timeout := 30 }

/-- An HTTP response as `add_documents` inspects it: status code, the
truthiness of the parsed body's `success` flag, the body's optional
`error` string, and the raw response text. -/
structure HttpResponse where
  status : Nat
  body_success : Bool
  body_error : Option String
  text : String
deriving Repr, DecidableEq

/-- Outcome of one `requests.post`: either a response or an exception
raised anywhere inside the `try` block (timeout, connection error,
malformed JSON body), carrying `str(e)`. -/
inductive TransportResult where
  | resp (r : HttpResponse)
  | exc (msg : String)
deriving Repr, DecidableEq

/-- The accumulated `results` dict of `add_documents`. -/
structure IndexResult where
  success : Nat
  failed : Nat
  errors : List String
deriving Repr, DecidableEq

/-- How one batch outcome updates the accumulated results: HTTP 200 with a
truthy `success` flag adds `len(batch)` to `success`; HTTP 200 with a
falsy flag adds `len(batch)` to `failed` and appends the body's `error`
(default `"Unknown error"`); a non-200 status adds `len(batch)` to
`failed` and appends `f"HTTP {status}: {text}"`; an exception adds
`len(batch)` to `failed` and appends its message. -/
def processBatch (acc : IndexResult) (batch : List Document) (t : TransportResult) :
    IndexResult :=
  match t with
  | .exc m =>
      { acc with failed := acc.failed + batch.length, errors := acc.errors ++ [m] }
  | .resp r =>
      if r.status = 200 then
        if r.body_success then
          { acc with success := acc.success + batch.length }
        else
          { acc with failed := acc.failed + batch.length
                   , errors := acc.errors ++ [r.body_error.getD "Unknown error"] }
      else
        { acc with failed := acc.failed + batch.length
                 , errors := acc.errors ++ ["HTTP " ++ toString r.status ++ ": " ++ r.text] }

/-- The batch loop of `add_documents`: for each batch in order, issue one
request and fold its outcome into the accumulator; `oracle i` is the
outcome of the `i`-th remaining call. Returns the final results and the
requests issued (one per batch, failures included). -/
def runBatches (idx : CloudflareVectorIndexer) (now : String)
    (oracle : Nat → TransportResult) :
    List (List Document) → IndexResult → IndexResult × List BatchRequest
  | [], acc => (acc, [])
  | b :: bs, acc =>
      let rest := runBatches idx now (fun n => oracle (n + 1)) bs (processBatch acc b (oracle 0))
      (rest.1, mkBatchRequest idx now b :: rest.2)

/-- `CloudflareVectorIndexer.add_documents`: slice the document list into
batches of 10 and run the batch loop starting from zero counters. -/
def add_documents (idx : CloudflareVectorIndexer) (now : String)
    (documents : List Document) (oracle : Nat → TransportResult) :
    IndexResult × List BatchRequest :=
  runBatches idx now oracle (chunksOf 10 documents) ⟨0, 0, []⟩

/-- The parsed response of the search endpoint as `search` inspects it:
status code and the optional `results` field of the 200 body. -/
structure SearchResponse where
  status : Nat
  results : Option (List JVal)
deriving Repr, DecidableEq

/-- `CloudflareVectorIndexer.search`: a 200 response yields
`data.get("results", [])`; a non-200 response yields `[]`; a transport
exception is caught and yields `[]`. -/
def search (idx : CloudflareVectorIndexer) (query : String) (top_k : Nat)
    (transport : Except String SearchResponse) : List JVal :=
  match transport with
  | .error _ => []
  | .ok r => if r.status = 200 then r.results.getD [] else []

/-- The static catalogue `DOCUMENTATION_SOURCES`: language name to ordered
URL list, in the source's insertion order. -/
def DOCUMENTATION_SOURCES : List (String × List String) :=
  [("swift",
     ["https://developer.apple.com/documentation/swift",
      "https://docs.swift.org/swift-book/",
      "https://www.swift.org/documentation/"]),
   ("python",
     ["https://docs.python.org/3/",
      "https://docs.python.org/3/tutorial/",
      "https://docs.python.org/3/library/"]),
   ("cloudflare",
     ["https://developers.cloudflare.com/workers/",
      "https://developers.cloudflare.com/vectorize/",
      "https://developers.cloudflare.com/d1/",
      "https://developers.cloudflare.com/r2/"]),
   ("langchain",
     ["https://python.langchain.com/docs/get_started/introduction",
      "https://python.langchain.com/docs/modules/"])]

/-- The metadata update applied to each raw document in
`load_documentation`: `doc.metadata.update({...})` with the collector keys
`language`, `source_url`, `doc_type` overriding loader-supplied ones. -/
def withCrawlMetadata (d : Document) (language url : String) : Document :=
  let upd := [("language", JVal.jstr language), ("source_url", JVal.jstr url),
    ("doc_type", JVal.jstr "reference")]
  { d with metadata := dictMerge d.metadata upd }

/-- `RefsDevCrawler.load_documentation`: call the external page loader
(`WebBaseLoader(url).load()`, modelled by the `loader` oracle); on an
exception, catch it, log, and return the empty list; on success, update
each raw document's metadata and run it through the text splitter (the
`splitter` oracle, an external `RecursiveCharacterTextSplitter`),
collecting all chunks. -/
def load_documentation (loader : String → Except String (List Document))
    (splitter : Document → List Document) (url : String) (language : String) :
    List Document :=
  match loader url with
  | .error _ => []
  | .ok raw_docs => raw_docs.foldr (fun d acc => splitter (withCrawlMetadata d language url) ++ acc) []

/-- The per-language URL loop of `crawl_all_sources`: `language_docs`. -/
def collectLanguage (loader : String → Except String (List Document))
    (splitter : Document → List Document) (language : String) (urls : List String) :
    List Document :=
  urls.foldr (fun url acc => load_documentation loader splitter url language ++ acc) []

/-- The run-wide `all_documents` list accumulated over the catalogue. -/
def collectAll (cat : List (String × List String))
    (loader : String → Except String (List Document))
    (splitter : Document → List Document) : List Document :=
  cat.foldr (fun p acc => collectLanguage loader splitter p.1 p.2 ++ acc) []

/-- The `stats["indexing"]` dict: the `errors` field is `none` when the
dict is built without an `errors` key (the empty-run branch writes only
`success` and `failed`). -/
structure IndexingStats where
  success : Nat
  failed : Nat
  errors : Option (List String)
deriving Repr, DecidableEq

/-- The `stats` dict returned by `crawl_all_sources`. -/
structure CrawlStats where
  languages : List (String × Nat)
  total_documents : Nat
  total_chunks : Nat
  indexing : IndexingStats
deriving Repr, DecidableEq

/-- `RefsDevCrawler.crawl_all_sources`: collect per-language chunk lists
over the catalogue, record per-language counts, set `total_documents` to
`len(DOCUMENTATION_SOURCES)` (the number of languages) and `total_chunks`
to `len(all_documents)`; then, if `all_documents` is non-empty, run
`add_documents` on it and store its result dict, else store
`{"success": 0, "failed": 0}` (no `errors` key) without any network call.
Returns the stats and the batch requests issued. -/
def crawl_all_sources (cat : List (String × List String))
    (loader : String → Except String (List Document))
    (splitter : Document → List Document)
    (idx : CloudflareVectorIndexer) (now : String)
    (oracle : Nat → TransportResult) : CrawlStats × List BatchRequest :=
  let all_documents := collectAll cat loader splitter
  let languages := cat.map (fun p => (p.1, (collectLanguage loader splitter p.1 p.2).length))
  if all_documents.isEmpty then
    ({ languages := languages
     , total_documents := cat.length
     , total_chunks := all_documents.length
     , indexing := { success := 0, failed := 0, errors := none } }, [])
  else
    let r := add_documents idx now all_documents oracle
    ({ languages := languages
     , total_documents := cat.length
     , total_chunks := all_documents.length
     , indexing := { success := r.1.success, failed := r.1.failed, errors := some r.1.errors } },
     r.2)

/-- A loader oracle with the outcome at one URL replaced. -/
def overrideLoader (loader : String → Except String (List Document)) (u : String)
    (v : Except String (List Document)) : String → Except String (List Document) :=
  fun x => if x = u then v else loader x

/-- An indexer built from the module's configuration defaults, with no API
token configured. -/
def idx0 : CloudflareVectorIndexer :=
  ⟨"091c9e59ca0fc3bea9f9d432fa12a3b1", "", "mca-embeddings", WORKERS_URL⟩

/-- A small concrete chunk used in concrete evaluations. -/
def doc0 : Document := ⟨"hello world", [("language", JVal.jstr "swift")]⟩

/-- A 4097-character text: 4096 copies of `a` then `x`. -/
def longTextX : String := String.mk (List.replicate 4096 'a' ++ ['x'])

/-- A 4097-character text agreeing with `longTextX` on its first 4096
characters and differing afterwards. -/
def longTextY : String := String.mk (List.replicate 4096 'a' ++ ['y'])

/-- Chunk carrying `longTextX` and empty metadata. -/
def docX : Document := ⟨longTextX, []⟩

/-- Chunk carrying `longTextY` and the same (empty) metadata. -/
def docY : Document := ⟨longTextY, []⟩

/-- A transport oracle whose every call raises. -/
def excOracle : Nat → TransportResult := fun _ => TransportResult.exc "connection refused"

/-- A loader oracle that raises on one fixed URL and yields no documents
elsewhere. -/
def loader0 : String → Except String (List Document) :=
  fun u => if u = "https://docs.swift.org/swift-book/" then Except.error "boom" else Except.ok []

/-- A loader oracle that raises on every URL. -/
def loaderFailAll : String → Except String (List Document) :=
  fun _ => Except.error "fetch failed"

/-- A splitter oracle that returns its input as a single chunk. -/
def splitter0 : Document → List Document := fun d => [d]

/-- A one-language, one-URL catalogue for concrete evaluations. -/
def cat0 : List (String × List String) := [("swift", ["https://docs.swift.org/swift-book/"])]

theorem listLen_eq (l : List α) : ∀ n : Nat, listLen l n = l.length + n := by
  induction l with
  | nil => intro n; simp [listLen]
  | cons x xs ih =>
      intro n
      cases n with
      | zero => simp [listLen, ih]
      | succ m => simp [listLen, ih]; omega

theorem chunksOfFuel_sum_length (k : Nat) (hk : 0 < k) :
    ∀ (fuel : Nat) (l : List α), l.length ≤ fuel →
      ((chunksOfFuel k fuel l).map List.length).sum = l.length := by
  intro fuel
  induction fuel with
  | zero =>
      intro l hl
      cases l with
      | nil => simp [chunksOfFuel]
      | cons x xs => simp at hl
  | succ f ih =>
      intro l hl
      cases l with
      | nil => simp [chunksOfFuel]
      | cons x xs =>
          have hdrop : (xs.drop (k - 1)).length ≤ f := by
            simp [List.length_drop]
            simp [List.length_cons] at hl
            omega
          simp [chunksOfFuel, ih (xs.drop (k - 1)) hdrop, List.length_take, List.length_drop]
          omega

theorem chunksOf_sum_length (k : Nat) (hk : 0 < k) (l : List α) :
    ((chunksOf k l).map List.length).sum = l.length := by
  unfold chunksOf
  exact chunksOfFuel_sum_length k hk (listLen l 0) l (by simp [listLen_eq])

theorem chunksOfFuel_count_ten :
    ∀ (fuel : Nat) (l : List α), l.length ≤ fuel →
      (chunksOfFuel 10 fuel l).length = (l.length + 9) / 10 := by
  intro fuel
  induction fuel with
  | zero =>
      intro l hl
      cases l with
      | nil => simp [chunksOfFuel]
      | cons x xs => simp at hl
  | succ f ih =>
      intro l hl
      cases l with
      | nil => simp [chunksOfFuel]
      | cons x xs =>
          have hdrop : (xs.drop 9).length ≤ f := by
            simp [List.length_drop]
            simp [List.length_cons] at hl
            omega
          have hrec := ih (xs.drop 9) hdrop
          simp [chunksOfFuel, hrec, List.length_drop]
          rcases Nat.lt_or_ge xs.length 9 with hc | hc
          · have h1 : xs.length - 9 = 0 := by omega
            have h2 : (xs.length + 1 + 9) / 10 = 1 := by
              have : xs.length + 1 + 9 < 20 := by omega
              have h10 : 10 ≤ xs.length + 1 + 9 := by omega
              omega
            rw [h1, h2]
          · have h1 : xs.length - 9 + 9 = xs.length := by omega
            rw [h1]
            have h2 : xs.length + 1 + 9 = (xs.length - 9 + 9) + 10 := by omega
            rw [h2, Nat.add_div_right _ (by norm_num), h1]

theorem chunksOf_count_ten (l : List α) :
    (chunksOf 10 l).length = (l.length + 9) / 10 := by
  unfold chunksOf
  exact chunksOfFuel_count_ten (listLen l 0) l (by simp [listLen_eq])

theorem processBatch_sum (acc : IndexResult) (b : List Document) (t : TransportResult) :
    (processBatch acc b t).success + (processBatch acc b t).failed =
      acc.success + acc.failed + b.length := by
  cases t with
  | exc m => simp [processBatch]; omega
  | resp r =>
      by_cases h200 : r.status = 200
      · by_cases hs : r.body_success
        · simp [processBatch, h200, hs]; omega
        · simp [processBatch, h200, hs]; omega
      · simp [processBatch, h200]; omega

theorem runBatches_sum (idx : CloudflareVectorIndexer) (now : String) :
    ∀ (bs : List (List Document)) (oracle : Nat → TransportResult) (acc : IndexResult),
      (runBatches idx now oracle bs acc).1.success + (runBatches idx now oracle bs acc).1.failed =
        acc.success + acc.failed + (bs.map List.length).sum := by
  intro bs
  induction bs with
  | nil => intro oracle acc; simp [runBatches]
  | cons b rest ih =>
      intro oracle acc
      simp only [runBatches, List.map_cons, List.sum_cons]
      rw [ih]
      rw [processBatch_sum]
      omega

theorem runBatches_requests (idx : CloudflareVectorIndexer) (now : String) :
    ∀ (bs : List (List Document)) (oracle : Nat → TransportResult) (acc : IndexResult),
      (runBatches idx now oracle bs acc).2 = bs.map (mkBatchRequest idx now) := by
  intro bs
  induction bs with
  | nil => intro oracle acc; simp [runBatches]
  | cons b rest ih => intro oracle acc; simp [runBatches, ih]

theorem map_const_replicate (l : List α) (c : β) :
    l.map (fun _ => c) = List.replicate l.length c := by
  induction l with
  | nil => simp
  | cons x xs ih => simp [ih, List.replicate_succ]

/-- C2: for every indexing run of `add_documents` over a list of N chunks,
`success + failed == N` after the run (a batch failure counts the whole
batch, never a partial count), and the number of remote calls issued is
`ceil(N/10)`. -/
theorem C2_success_failed_partition (idx : CloudflareVectorIndexer) (now : String)
    (docs : List Document) (oracle : Nat → TransportResult) :
    (add_documents idx now docs oracle).1.success +
        (add_documents idx now docs oracle).1.failed = docs.length
    ∧ (add_documents idx now docs oracle).2.length = (docs.length + 9) / 10 := by
  constructor
  · unfold add_documents
    rw [runBatches_sum]
    simp [chunksOf_sum_length 10 (by norm_num)]
  · unfold add_documents
    rw [runBatches_requests]
    simp [chunksOf_count_ten]

/-- C3: every batch request of `add_documents` carries the same headers
dict; on the wire the `Authorization` header is absent exactly when no API
token is configured, and carries `Bearer <token>` otherwise. -/
theorem C3_authorization_header (idx : CloudflareVectorIndexer) (now : String)
    (docs : List Document) (oracle : Nat → TransportResult) :
    ((add_documents idx now docs oracle).2.map BatchRequest.headers) =
      List.replicate (chunksOf 10 docs).length (requestHeadersDict idx.api_token)
    ∧ List.lookup "Authorization" (wireHeaders (requestHeadersDict idx.api_token)) =
        (if idx.api_token = "" then none else some ("Bearer " ++ idx.api_token)) := by
  constructor
  · unfold add_documents
    rw [runBatches_requests, List.map_map]
    exact map_const_replicate _ _
  · by_cases h : idx.api_token = ""
    · rw [h]
      rfl
    · rw [if_neg h]
      simp only [requestHeadersDict, if_neg h]
      rfl

/-- C7: `search` never raises: a 200 response yields the body's `results`
field (empty if absent), and a non-200 response or a transport exception
yields the empty sequence. -/
theorem C7_search_never_raises (idx : CloudflareVectorIndexer) (query : String) (top_k : Nat) :
    (∀ (s : Nat) (res : Option (List JVal)),
        search idx query top_k (Except.ok ⟨s, res⟩) = if s = 200 then res.getD [] else [])
    ∧ (∀ m : String, search idx query top_k (Except.error m) = []) := by
  constructor
  · intro s res
    rfl
  · intro m
    rfl

theorem crawl_total_docs (cat : List (String × List String))
    (loader : String → Except String (List Document)) (splitter : Document → List Document)
    (idx : CloudflareVectorIndexer) (now : String) (oracle : Nat → TransportResult) :
    (crawl_all_sources cat loader splitter idx now oracle).1.total_documents = cat.length := by
  unfold crawl_all_sources
  by_cases h : (collectAll cat loader splitter).isEmpty
  · simp [h]
  · simp [h]

/-- C10: `crawl_all_sources` sets `total_documents` to the number of
languages (top-level keys) of the catalogue — 4 for the static
`DOCUMENTATION_SOURCES` — regardless of what the loaders returned. -/
theorem C10_total_documents_counts_languages (cat : List (String × List String))
    (loader : String → Except String (List Document)) (splitter : Document → List Document)
    (idx : CloudflareVectorIndexer) (now : String) (oracle : Nat → TransportResult) :
    (crawl_all_sources cat loader splitter idx now oracle).1.total_documents = cat.length
    ∧ (crawl_all_sources DOCUMENTATION_SOURCES loader splitter idx now oracle).1.total_documents
        = 4 := by
  refine ⟨crawl_total_docs cat loader splitter idx now oracle, ?_⟩
  rw [crawl_total_docs DOCUMENTATION_SOURCES loader splitter idx now oracle]
  rfl

/-- C1 (amended): two IndexableUnits built by `add_documents` from an
identical Chunk at different times get the SAME id: the id is computed
from the chunk's text and its metadata as they are before `indexed_at` is
attached, so it does not depend on the indexing timestamp. -/
theorem C1_amended_id_ignores_time (idx : CloudflareVectorIndexer) (t1 t2 : String)
    (docs : List Document) (oracle1 oracle2 : Nat → TransportResult) :
    ((add_documents idx t1 docs oracle1).2.map (fun q => q.documents.map IndexableUnit.id)) =
      ((add_documents idx t2 docs oracle2).2.map (fun q => q.documents.map IndexableUnit.id))
    ∧ ∀ d : Document, (mkIndexableUnit d t1).id = (mkIndexableUnit d t2).id := by
  constructor
  · unfold add_documents
    rw [runBatches_requests, runBatches_requests, List.map_map, List.map_map]
    have hF : ((fun q => List.map IndexableUnit.id q.documents) ∘ mkBatchRequest idx t1) =
        ((fun q => List.map IndexableUnit.id q.documents) ∘ mkBatchRequest idx t2) := by
      funext q
      show List.map IndexableUnit.id (List.map (fun d => mkIndexableUnit d t1) q) =
          List.map IndexableUnit.id (List.map (fun d => mkIndexableUnit d t2) q)
      rw [List.map_map, List.map_map]
      rfl
    rw [hF]
  · intro d
    rfl

set_option maxRecDepth 100000 in
/-- C1 (counterexample): the same chunk indexed at two different times
yields units whose metadata differ (different `indexed_at`) but whose ids
are EQUAL, refuting the claim that they get different ids. -/
theorem C1_counterexample_same_id_distinct_times :
    ((add_documents idx0 "2024-01-01T00:00:00" [doc0] excOracle).2.map
        (fun q => q.documents.map IndexableUnit.id)) =
      ((add_documents idx0 "2025-06-01T12:00:00" [doc0] excOracle).2.map
        (fun q => q.documents.map IndexableUnit.id))
    ∧ ("2024-01-01T00:00:00" : String) ≠ "2025-06-01T12:00:00"
    ∧ (mkIndexableUnit doc0 "2024-01-01T00:00:00").metadata ≠
        (mkIndexableUnit doc0 "2025-06-01T12:00:00").metadata := by
  refine ⟨?_, ?_, ?_⟩
  · decide
  · decide
  · decide

/-- C6: a batch whose remote call returns a non-200 status adds exactly the
batch size to `failed`, appends exactly one string combining the status
code and response body to `errors`, and the loop still issues one request
per batch, subsequent batches included. -/
theorem C6_non200_fails_whole_batch (idx : CloudflareVectorIndexer) (now : String)
    (oracle : Nat → TransportResult) (b : List Document) (bs : List (List Document))
    (acc : IndexResult) (r : HttpResponse)
    (h0 : oracle 0 = TransportResult.resp r) (h200 : r.status ≠ 200) :
    processBatch acc b (oracle 0) =
      { success := acc.success
      , failed := acc.failed + b.length
      , errors := acc.errors ++ ["HTTP " ++ toString r.status ++ ": " ++ r.text] }
    ∧ (runBatches idx now oracle (b :: bs) acc).2.length = bs.length + 1 := by
  constructor
  · rw [h0]
    simp [processBatch, h200]
  · rw [runBatches_requests]
    simp

/-- Witness for C6 at a concrete HTTP 500 response. -/
theorem C6_witness :
    processBatch ⟨0, 0, []⟩ [doc0] (TransportResult.resp ⟨500, false, none, "kaboom"⟩) =
      ⟨0, 1, ["HTTP 500: kaboom"]⟩
    ∧ (runBatches idx0 "t" (fun _ => TransportResult.resp ⟨500, false, none, "kaboom"⟩)
        [[doc0], [doc0]] ⟨0, 0, []⟩).2.length = 2 := by
  have h := C6_non200_fails_whole_batch idx0 "t"
      (fun _ => TransportResult.resp ⟨500, false, none, "kaboom"⟩) [doc0] [[doc0]]
      ⟨0, 0, []⟩ ⟨500, false, none, "kaboom"⟩ rfl (by decide)
  exact ⟨h.1.trans (by decide), h.2⟩

/-- C4 (code, evaluated on the failing shape): when the run-wide chunk
list is empty, `crawl_all_sources` issues no indexing request and stores
an indexing dict with `success = 0`, `failed = 0` and NO `errors` key
(`errors = none`) — not the empty `errors` sequence the claim describes. -/
theorem C4_empty_run_reports_no_errors_key (cat : List (String × List String))
    (loader : String → Except String (List Document)) (splitter : Document → List Document)
    (idx : CloudflareVectorIndexer) (now : String) (oracle : Nat → TransportResult)
    (h : collectAll cat loader splitter = []) :
    (crawl_all_sources cat loader splitter idx now oracle).2 = []
    ∧ (crawl_all_sources cat loader splitter idx now oracle).1.indexing =
        ⟨0, 0, none⟩ := by
  constructor
  · simp [crawl_all_sources, h]
  · simp [crawl_all_sources, h]

/-- Witness for C4: a catalogue whose only URL fails to load, so the run
collects no chunks. -/
theorem C4_witness :
    collectAll cat0 loaderFailAll splitter0 = []
    ∧ (crawl_all_sources cat0 loaderFailAll splitter0 idx0 "t" excOracle).2 = []
    ∧ (crawl_all_sources cat0 loaderFailAll splitter0 idx0 "t" excOracle).1.indexing =
        ⟨0, 0, none⟩ := by
  have h : collectAll cat0 loaderFailAll splitter0 = [] := rfl
  have hc := C4_empty_run_reports_no_errors_key cat0 loaderFailAll splitter0 idx0 "t" excOracle h
  exact ⟨h, hc.1, hc.2⟩

theorem load_documentation_override (loader : String → Except String (List Document))
    (splitter : Document → List Document) (url : String) (e : String)
    (h : loader url = Except.error e) :
    ∀ (u lang : String),
      load_documentation (overrideLoader loader url (Except.ok [])) splitter u lang =
        load_documentation loader splitter u lang := by
  intro u lang
  unfold load_documentation overrideLoader
  by_cases hu : u = url
  · subst hu
    rw [if_pos rfl, h]
    rfl
  · rw [if_neg hu]

theorem collectLanguage_congr (l1 l2 : String → Except String (List Document))
    (splitter : Document → List Document)
    (h : ∀ u lang, load_documentation l1 splitter u lang = load_documentation l2 splitter u lang) :
    ∀ (lang : String) (urls : List String),
      collectLanguage l1 splitter lang urls = collectLanguage l2 splitter lang urls := by
  intro lang urls
  induction urls with
  | nil => rfl
  | cons u us ih =>
      simp only [collectLanguage, List.foldr_cons] at ih ⊢
      rw [h, ih]

theorem collectAll_congr (l1 l2 : String → Except String (List Document))
    (splitter : Document → List Document)
    (h : ∀ u lang, load_documentation l1 splitter u lang = load_documentation l2 splitter u lang) :
    ∀ cat : List (String × List String),
      collectAll cat l1 splitter = collectAll cat l2 splitter := by
  intro cat
  induction cat with
  | nil => rfl
  | cons p ps ih =>
      simp only [collectAll, List.foldr_cons] at ih ⊢
      rw [collectLanguage_congr l1 l2 splitter h, ih]

theorem crawl_congr (cat : List (String × List String))
    (l1 l2 : String → Except String (List Document)) (splitter : Document → List Document)
    (idx : CloudflareVectorIndexer) (now : String) (oracle : Nat → TransportResult)
    (h : ∀ u lang, load_documentation l1 splitter u lang = load_documentation l2 splitter u lang) :
    crawl_all_sources cat l1 splitter idx now oracle =
      crawl_all_sources cat l2 splitter idx now oracle := by
  have hall := collectAll_congr l1 l2 splitter h cat
  have hmap : (fun (p : String × List String) =>
        (p.1, (collectLanguage l1 splitter p.1 p.2).length)) =
      (fun (p : String × List String) => (p.1, (collectLanguage l2 splitter p.1 p.2).length)) := by
    funext p
    rw [collectLanguage_congr l1 l2 splitter h p.1 p.2]
  unfold crawl_all_sources
  rw [hall, hmap]

/-- C5: a URL whose loader invocation raises contributes zero chunks and
never aborts the run: `load_documentation` returns the empty list for it,
and the whole crawl behaves exactly as if that URL had loaded zero
documents — all other URLs and languages are still processed and nothing
about the failure reaches the returned stats. -/
theorem C5_loader_failure_swallowed (cat : List (String × List String))
    (loader : String → Except String (List Document)) (splitter : Document → List Document)
    (idx : CloudflareVectorIndexer) (now : String) (oracle : Nat → TransportResult)
    (url e : String) (h : loader url = Except.error e) :
    (∀ language, load_documentation loader splitter url language = [])
    ∧ crawl_all_sources cat (overrideLoader loader url (Except.ok [])) splitter idx now oracle =
        crawl_all_sources cat loader splitter idx now oracle := by
  constructor
  · intro language
    unfold load_documentation
    rw [h]
  · exact crawl_congr cat _ loader splitter idx now oracle
      (load_documentation_override loader splitter url e h)

/-- Witness for C5: the concrete catalogue with a loader that raises on one
swift URL and yields no documents elsewhere. -/
theorem C5_witness :
    loader0 "https://docs.swift.org/swift-book/" = Except.error "boom"
    ∧ load_documentation loader0 splitter0 "https://docs.swift.org/swift-book/" "swift" = []
    ∧ crawl_all_sources DOCUMENTATION_SOURCES
        (overrideLoader loader0 "https://docs.swift.org/swift-book/" (Except.ok []))
        splitter0 idx0 "t" excOracle =
      crawl_all_sources DOCUMENTATION_SOURCES loader0 splitter0 idx0 "t" excOracle := by
  have h : loader0 "https://docs.swift.org/swift-book/" = Except.error "boom" := rfl
  have hc := C5_loader_failure_swallowed DOCUMENTATION_SOURCES loader0 splitter0 idx0 "t"
      excOracle "https://docs.swift.org/swift-book/" "boom" h
  exact ⟨h, hc.1 "swift", hc.2⟩

theorem toHexChars_length : ∀ (n v : Nat), (toHexChars n v).length = n := by
  intro n
  induction n with
  | zero => intro v; rfl
  | succ m ih => intro v; simp [toHexChars, ih]

theorem hexDigit_mem (m : Nat) (hm : m < 16) : hexDigit m ∈ lowercaseHexChars := by
  interval_cases m <;> decide

theorem toHexChars_mem : ∀ (n v : Nat) (c : Char), c ∈ toHexChars n v → c ∈ lowercaseHexChars := by
  intro n
  induction n with
  | zero =>
      intro v c hc
      simp [toHexChars] at hc
  | succ m ih =>
      intro v c hc
      simp only [toHexChars, List.mem_append, List.mem_singleton] at hc
      rcases hc with h | h
      · exact ih _ c h
      · exact h ▸ hexDigit_mem _ (Nat.mod_lt _ (by norm_num))

theorem hexdigestChars_length (st : H8) : (hexdigestChars st).length = 64 := by
  simp [hexdigestChars, toHexChars_length]

theorem hexdigestChars_mem (st : H8) (c : Char) (hc : c ∈ hexdigestChars st) :
    c ∈ lowercaseHexChars := by
  simp only [hexdigestChars, List.mem_append] at hc
  rcases hc with ((((((h | h) | h) | h) | h) | h) | h) | h <;> exact toHexChars_mem _ _ _ h

/-- C8: `generate_embedding_id` is a pure function of `(text, metadata)` —
the same pair always yields the same id — equal to the first 16 hex
characters of the SHA-256 digest of the UTF-8 bytes of the text
concatenated with the metadata serialized as JSON with keys sorted
lexicographically; the id is 16 characters long and every character is a
lowercase hexadecimal digit. -/
theorem C8_fingerprint_shape (text : String) (md : List (String × JVal)) :
    generate_embedding_id text md =
      strTake (String.mk (hexdigestChars (sha256 (utf8Bytes (text ++ jsonDumpsSorted md))))) 16
    ∧ (generate_embedding_id text md).length = 16
    ∧ ∀ c ∈ (generate_embedding_id text md).data, c ∈ lowercaseHexChars := by
  refine ⟨rfl, ?_, ?_⟩
  · show (List.take 16 (hexdigestChars (sha256 (utf8Bytes (text ++ jsonDumpsSorted md))))).length = 16
    rw [List.length_take, hexdigestChars_length]
    rfl
  · intro c hc
    have hc2 : c ∈ hexdigestChars (sha256 (utf8Bytes (text ++ jsonDumpsSorted md))) :=
      List.take_subset 16 _ hc
    exact hexdigestChars_mem _ c hc2

/-- Witness for C8 at a concrete chunk: the id has 16 characters and its
first character is a lowercase hex digit. -/
theorem C8_witness :
    (generate_embedding_id "hello world" [("language", JVal.jstr "swift")]).length = 16
    ∧ ('7' : Char) ∈ lowercaseHexChars := by
  have h := C8_fingerprint_shape "hello world" [("language", JVal.jstr "swift")]
  exact ⟨h.2.1, h.2.2 '7' (by decide)⟩

theorem takeX_eq : (List.replicate 4096 'a' ++ ['x']).take 4096 = List.replicate 4096 'a' := by
  have h := List.take_left (List.replicate 4096 'a') ['x']
  rwa [List.length_replicate] at h

theorem takeY_eq : (List.replicate 4096 'a' ++ ['y']).take 4096 = List.replicate 4096 'a' := by
  have h := List.take_left (List.replicate 4096 'a') ['y']
  rwa [List.length_replicate] at h

set_option maxRecDepth 400000 in
/-- C9: the id of an IndexableUnit is computed from the chunk's full,
untruncated text: for any two chunks with identical metadata whose texts
agree on their first 4096 characters, the units built inside
`add_documents` carry identical (truncated) text fields while each id is
the fingerprint of the full text; at the concrete pair `docX`/`docY`
(identical metadata, texts equal up to character 4096 and differing
afterwards) the ids are distinct. -/
theorem C9_id_uses_full_text :
    (∀ (d1 d2 : Document) (now : String),
        d1.metadata = d2.metadata →
        d1.page_content.data.take 4096 = d2.page_content.data.take 4096 →
        (mkIndexableUnit d1 now).text = (mkIndexableUnit d2 now).text
        ∧ (mkIndexableUnit d1 now).id = generate_embedding_id d1.page_content d1.metadata
        ∧ (mkIndexableUnit d2 now).id = generate_embedding_id d2.page_content d2.metadata)
    ∧ (mkIndexableUnit docX "t").text = (mkIndexableUnit docY "t").text
    ∧ (mkIndexableUnit docX "t").id ≠ (mkIndexableUnit docY "t").id := by
  refine ⟨?_, ?_, ?_⟩
  · intro d1 d2 now hmd htake
    refine ⟨?_, rfl, rfl⟩
    show String.mk (d1.page_content.data.take 4096) = String.mk (d2.page_content.data.take 4096)
    rw [htake]
  · show String.mk ((List.replicate 4096 'a' ++ ['x']).take 4096) =
        String.mk ((List.replicate 4096 'a' ++ ['y']).take 4096)
    rw [takeX_eq, takeY_eq]
  · decide

set_option maxRecDepth 400000 in
/-- Witness for C9: the universal part applied at the concrete pair. -/
theorem C9_witness :
    (mkIndexableUnit docX "t").text = (mkIndexableUnit docY "t").text
    ∧ (mkIndexableUnit docX "t").id = generate_embedding_id docX.page_content docX.metadata := by
  have htake : docX.page_content.data.take 4096 = docY.page_content.data.take 4096 := by
    show (List.replicate 4096 'a' ++ ['x']).take 4096 =
        (List.replicate 4096 'a' ++ ['y']).take 4096
    rw [takeX_eq, takeY_eq]
  have h := C9_id_uses_full_text.1 docX docY "t" rfl htake
  exact ⟨h.1, h.2.1⟩
